import Mathlib

/-!
Shallow embedding of `src/ArduinoAutomation1.1.ino` (Arduino ACPI Automation,
version 1.1).

The sketch's global mutable variables (lines 87-98 of the source) become the
fields of `AState`; each C function becomes a Lean function from `AState` to
`AState` paired with the list of observable side effects (`Act`) it performs,
in order.  Serial output lines are modelled by the structured `Msg` type, one
constructor per `serial_printf` call site; the elapsed-time stamp prepended by
`serial_printf` and the interactive menu prompt text are presentation only and
are not modelled.  Blocking `delay(...)` calls are recorded as `Act.wait`
effects.  `millis()` is supplied as an explicit `now` argument where the
source reads it.  Analog readings are natural numbers (`analogRead` yields
values in 0..1023, and all buffered values stay non-negative, so C `int`
division on the average agrees with `Nat` division).  A serial read that the
sketch would block on forever (input never arriving) is modelled by
`Option.none` from the interactive `new` wizard.
-/

set_option maxRecDepth 8000

/-- Configuration constant `pwrThreshold` (source line 64): an average strictly
below it classifies the system as on. -/
def pwrThreshold : Nat := 100

/-- The sketch's global mutable variables (source lines 87-98).  `in0`..`in4`
are the array `in[5]` (initialised to `{0,0,0,0,999}`), `ps0`..`ps2` are the
array `powerStates[3]` with `ps0 = powerStates[0]` the most recent committed
state.  `delayTime` is a C `long`, hence `Int` (Arduino `String::toInt` can
produce negative values).  `powerCheck` and `cycle` are only ever incremented
or reset to a non-negative constant, hence `Nat`. -/
structure AState where
  in0 : Nat
  in1 : Nat
  in2 : Nat
  in3 : Nat
  in4 : Nat
  avg : Nat
  inCount : Nat
  cycle : Nat
  startTime : Nat
  delayTime : Int
  state : String
  attemptOn : Bool
  paused : Bool
  ps0 : Bool
  ps1 : Bool
  ps2 : Bool
  powerCheck : Nat
  deriving DecidableEq, Repr

/-- The initial values of the globals at Arduino boot (source lines 87-98). -/
def initState : AState :=
  { in0 := 0, in1 := 0, in2 := 0, in3 := 0, in4 := 999
    avg := 0, inCount := 0, cycle := 1, startTime := 0, delayTime := 0
    state := "None", attemptOn := false, paused := false
    ps0 := false, ps1 := false, ps2 := false, powerCheck := 0 }

/-- One serial output line, one constructor per `serial_printf`/`println` call
site of the source (prompt text of the `new` wizard excluded).  The arguments
carry the values interpolated by the corresponding format string:
`systemIsOn` = "System is on" (line 108), `systemIsOff` = "System is off"
(line 132), `cycleStart n` = "--- Cycle n Start ---" (lines 113/283),
`spuriousPowerOn` = "!!! ERROR !!! System powered on before Arduino power on"
(line 120), `failedPowerOn` = "!!! ERROR !!! System did not power on properly"
(line 135), `powerOnIn secs` = "Power On in secs seconds" (line 151),
`attemptToggle` = "Attempting power toggle" (line 164), `pausedNote st` /
`resumingNote st` / `stopping st` = the pause/resume/stop notices (lines
208/214/288), `commencing mode secs` = the "Commencing ... Test" notice
(lines 255/260/265/281), `debugDump st` = the five `printDebug` lines
(lines 371-375) collapsed into one structured dump of the globals. -/
inductive Msg where
  | systemIsOn : Msg
  | systemIsOff : Msg
  | cycleStart (n : Nat) : Msg
  | spuriousPowerOn : Msg
  | failedPowerOn : Msg
  | powerOnIn (secs : Int) : Msg
  | attemptToggle : Msg
  | pausedNote (st : String) : Msg
  | resumingNote (st : String) : Msg
  | stopping (st : String) : Msg
  | commencing (mode : String) (secs : Int) : Msg
  | debugDump (st : AState) : Msg
  deriving DecidableEq, Repr

/-- One observable side effect: a serial message, a digital write on the
`pwrSwitch` pin, or a blocking `delay(ms)` (ms as written in the source;
a C `long` expression, hence `Int`). -/
inductive Act where
  | say (m : Msg) : Act
  | pinLow : Act
  | pinHigh : Act
  | wait (ms : Int) : Act
  deriving DecidableEq, Repr

/-- Model of `powerToggle()` (source lines 163-172): announce, drive `pwrSwitch` low,
hold 1000 ms, release high, settle 4800 ms.  It touches no global variable. -/
def powerToggleActs : List Act :=
  [Act.say Msg.attemptToggle, Act.pinLow, Act.wait 1000, Act.pinHigh, Act.wait 4800]

/-- First part of `systemOn()` (lines 107-108): notify when the previously
committed state `powerStates[1]` was off. -/
def sysOnNotify (s : AState) : List Act :=
  if s.ps1 then [] else [Act.say Msg.systemIsOn]

/-- Second part of `systemOn()` (lines 110-114): a pending power-on attempt is
confirmed, the cycle counter is incremented and announced. -/
def sysOnAttempt (s : AState) : AState × List Act :=
  if s.attemptOn then
    ({ s with attemptOn := false, cycle := s.cycle + 1 },
      [Act.say (Msg.cycleStart (s.cycle + 1))])
  else (s, [])

/-- Third part of `systemOn()` (lines 116-123): while a check sequence is in
progress (`powerCheck > 0`) the counter is incremented; if it reaches 2 and
`powerStates[0] || powerStates[1]` holds, the spurious power-on error is
reported and the counter reset to 0. -/
def sysOnCheck (s : AState) : AState × List Act :=
  if 0 < s.powerCheck then
    if s.powerCheck + 1 = 2 ∧ (s.ps0 || s.ps1) = true then
      ({ s with powerCheck := 0 }, [Act.say Msg.spuriousPowerOn])
    else ({ s with powerCheck := s.powerCheck + 1 }, [])
  else (s, [])

/-- Model of `systemOn()` (source lines 105-124), run after the fresh debounced state
has been pushed into `powerStates` with `powerStates[0] = true`. -/
def systemOn (s : AState) : AState × List Act :=
  ((sysOnCheck (sysOnAttempt s).1).1,
    sysOnNotify s ++ (sysOnAttempt s).2 ++ (sysOnCheck (sysOnAttempt s).1).2)

/-- First part of `systemOff()` (lines 131-132): notify when the previously
committed state `powerStates[1]` was on. -/
def sysOffNotify (s : AState) : List Act :=
  if s.ps1 then [Act.say Msg.systemIsOff] else []

/-- Second part of `systemOff()` (lines 134-137): a pending power-on attempt
failed; report the failed power-on error and clear `attemptOn`. -/
def sysOffAttempt (s : AState) : AState × List Act :=
  if s.attemptOn then
    ({ s with attemptOn := false }, [Act.say Msg.failedPowerOn])
  else (s, [])

/-- Third part of `systemOff()` (lines 139-157): unless `state` is the string
"None" or the string "Paused" (the latter is never assigned anywhere in the
sketch), escalate the power check: at 2 toggle power, reset the counter and
set `attemptOn`; at 0 announce the countdown, block for `delayTime - 2000`
milliseconds and step to 1; otherwise increment. -/
def sysOffProtocol (s : AState) : AState × List Act :=
  if s.state = "None" ∨ s.state = "Paused" then (s, [])
  else if s.powerCheck = 2 then
    ({ s with powerCheck := 0, attemptOn := true }, powerToggleActs)
  else if s.powerCheck = 0 then
    ({ s with powerCheck := 1 },
      [Act.say (Msg.powerOnIn (s.delayTime / 1000)), Act.wait (s.delayTime - 2000)])
  else ({ s with powerCheck := s.powerCheck + 1 }, [])

/-- Model of `systemOff()` (source lines 129-158), run after the fresh debounced state
has been pushed into `powerStates` with `powerStates[0] = false`. -/
def systemOff (s : AState) : AState × List Act :=
  ((sysOffProtocol (sysOffAttempt s).1).1,
    sysOffNotify s ++ (sysOffAttempt s).2 ++ (sysOffProtocol (sysOffAttempt s).1).2)

/-- Model of `updatePowerStates(on)` (source lines 359-363): shift the 3-deep history
and store the new committed state in `powerStates[0]`. -/
def updatePowerStates (s : AState) (isOn : Bool) : AState :=
  { s with ps2 := s.ps1, ps1 := s.ps0, ps0 := isOn }

/-- Committing one debounced observation (loop lines 335-344): push it into
`powerStates`, then dispatch on `powerStates[0]` to `systemOn`/`systemOff`. -/
def commit (s : AState) (isOn : Bool) : AState × List Act :=
  let s1 := updatePowerStates s isOn
  if s1.ps0 then systemOn s1 else systemOff s1

/-- Store a raw reading in `in[i]` (loop line 330).  Indices other than 0..4
never occur (`inCount` cycles through 0..4). -/
def setBuf (s : AState) (i raw : Nat) : AState :=
  if i = 0 then { s with in0 := raw }
  else if i = 1 then { s with in1 := raw }
  else if i = 2 then { s with in2 := raw }
  else if i = 3 then { s with in3 := raw }
  else if i = 4 then { s with in4 := raw }
  else s

/-- Sum of the five buffered readings (loop line 334). -/
def bufSum (s : AState) : Nat := s.in0 + s.in1 + s.in2 + s.in3 + s.in4

/-- Read the value of `in[i]`. -/
def bufGet (s : AState) (i : Nat) : Nat :=
  if i = 0 then s.in0
  else if i = 1 then s.in1
  else if i = 2 then s.in2
  else if i = 3 then s.in3
  else s.in4

/-- The Sampler slice of `loop()` (source lines 330-334, 345-349): store the
raw reading at index `inCount`; on index 4 compute the average of the five
buffered values, reset the index to 0 and return the debounced boolean
(`true` when the average is strictly below `pwrThreshold`); on indices 0..3
just advance the index and return nothing. -/
def observe (s : AState) (raw : Nat) : AState × Option Bool :=
  let s1 := setBuf s s.inCount raw
  if s.inCount = 4 then
    let a := bufSum s1 / 5
    ({ s1 with avg := a, inCount := 0 }, some (decide (a < pwrThreshold)))
  else ({ s1 with inCount := s.inCount + 1 }, none)

/-- One pass of the sampling half of `loop()` (source lines 329-349): fold the
raw reading into the window and, every fifth reading, commit the debounced
observation. -/
def loopTick (s : AState) (raw : Nat) : AState × List Act :=
  match observe s raw with
  | (s1, none) => (s1, [])
  | (s1, some isOn) => commit s1 isOn

/-- Model of Arduino `String::toInt` (`atol`): skip leading whitespace, read
an optional sign and then the longest run of leading decimal digits; an input
with no leading digits yields 0. -/
def leadNat (cs : List Char) : Nat :=
  (cs.takeWhile Char.isDigit).foldl (fun a c => a * 10 + (c.toNat - 48)) 0

/-- See `leadNat`; this is the signed entry point used at source line 277. -/
def toIntM (str : String) : Int :=
  match str.data.dropWhile Char.isWhitespace with
  | '-' :: rest => -(leadNat rest : Int)
  | '+' :: rest => (leadNat rest : Int)
  | cs => (leadNat cs : Int)

/-- ASCII lower-casing of one character, as `String::toLowerCase` does. -/
def lowerChar (c : Char) : Char :=
  if 65 ≤ c.toNat ∧ c.toNat ≤ 90 then Char.ofNat (c.toNat + 32) else c

/-- Model of `serialInput.toLowerCase()` (source line 203). -/
def lowerStr (str : String) : String := ⟨str.data.map lowerChar⟩

/-- The mode-selection loop of the `new` wizard (source lines 223-239): keep
reading lines until one of "1".."4" arrives; return it and the unconsumed
input.  `none` models input that never arrives (the sketch blocks forever). -/
def askMode : List String → Option (String × List String)
  | [] => none
  | c :: rest =>
    if c = "1" ∨ c = "2" ∨ c = "3" ∨ c = "4" then some (c, rest) else askMode rest

/-- The custom-delay loop (source lines 269-279): keep reading lines until one
whose `toInt`, times 1000, is non-zero arrives; return that product and the
unconsumed input. -/
def askDelay : List String → Option (Int × List String)
  | [] => none
  | l :: rest =>
    let d := toIntM l * 1000
    if d = 0 then askDelay rest else some (d, rest)

/-- The reset block of the `new` command (source lines 240-250): clear the
sample window back to its boot contents `{0,0,0,0,999}` and index, reset
`cycle` to 1, record `startTime` from `millis()`, un-pause, clear the power
history and reset `powerCheck`.  (`attemptOn` and `avg` are not touched by
this block.) -/
def resetVars (s : AState) (now : Nat) : AState :=
  { s with in0 := 0, in1 := 0, in2 := 0, in3 := 0, in4 := 999
           cycle := 1, inCount := 0, startTime := now, paused := false
           ps0 := false, ps1 := false, ps2 := false, powerCheck := 0 }

/-- The `new` command (source lines 220-284): run the mode wizard over the
pending input lines, reset the globals, then set `delayTime` and `state` per
the chosen mode (prompting again for a non-zero custom delay), announcing the
test and cycle 1.  `none` models the sketch blocking forever on input that
never arrives. -/
def newCommand (s : AState) (pending : List String) (now : Nat) :
    Option (AState × List Act) :=
  match askMode pending with
  | none => none
  | some (choice, rest) =>
    let s1 := resetVars s now
    if choice = "1" then
      some ({ s1 with delayTime := 30000, state := "S5" },
        [Act.say (Msg.commencing "S5" (30000 / 1000)), Act.say (Msg.cycleStart 1)])
    else if choice = "2" then
      some ({ s1 with delayTime := 60000, state := "Manual S3/S4" },
        [Act.say (Msg.commencing "Manual S3/S4" (60000 / 1000)),
         Act.say (Msg.cycleStart 1)])
    else if choice = "3" then
      some ({ s1 with delayTime := 75000, state := "Combination" },
        [Act.say (Msg.commencing "Combination" (75000 / 1000)),
         Act.say (Msg.cycleStart 1)])
    else
      match askDelay rest with
      | none => none
      | some (d, _) =>
        some ({ s1 with delayTime := d, state := "Custom" },
          [Act.say (Msg.commencing "Custom" (d / 1000)), Act.say (Msg.cycleStart 1)])

/-- Model of `checkSerialInput()` (source lines 201-301) for one complete received
line: lower-case it and dispatch.  `pending` is the input available to the
`new` wizard; `now` is `millis()` at this tick.  A `new` whose wizard never
completes is modelled as leaving the state unchanged (the sketch would simply
block forever inside the wizard, executing no further transition). -/
def handleLine (s : AState) (line : String) (pending : List String) (now : Nat) :
    AState × List Act :=
  let input := lowerStr line
  if input = "pause" then
    ({ s with paused := true }, [Act.say (Msg.pausedNote s.state)])
  else if input = "resume" then
    ({ s with paused := false }, [Act.say (Msg.resumingNote s.state)])
  else if input = "new" then (newCommand s pending now).getD (s, [])
  else if input = "stop" then
    ({ s with state := "None" }, [Act.say (Msg.stopping s.state)])
  else if input = "toggle" then (s, powerToggleActs)
  else if input = "debug" then (s, [Act.say (Msg.debugDump s)])
  else (s, [])

/-- One externally triggered transition: a complete serial command line
(with the further lines its wizard may consume, and `millis()`), or one raw
analog reading folded in by `loop()`. -/
inductive Ev where
  | line (input : String) (pending : List String) (now : Nat) : Ev
  | read (raw : Nat) : Ev
  deriving DecidableEq, Repr

/-- Dispatch one event. -/
def step (s : AState) : Ev → AState × List Act
  | Ev.line input pending now => handleLine s input pending now
  | Ev.read raw => loopTick s raw

/-- Run a sequence of events, collecting all side effects in order. -/
def run (s : AState) : List Ev → AState × List Act
  | [] => (s, [])
  | e :: es =>
    let p := step s e
    let q := run p.1 es
    (q.1, p.2 ++ q.2)

/-- Does this event commit an on-observation while `powerCheck = 2`? -/
def onCommitAt2 (s : AState) : Ev → Bool
  | Ev.line _ _ _ => false
  | Ev.read raw => decide ((observe s raw).2 = some true) && decide (s.powerCheck = 2)

/-- No event of the trace commits an on-observation while `powerCheck = 2`. -/
def noOnAt2 (s : AState) : List Ev → Bool
  | [] => true
  | e :: es => !onCommitAt2 s e && noOnAt2 (step s e).1 es

/-! ### Helper lemmas about the embedded operations -/

/-- A successful `new` always produces the reset state of `resetVars`, with
only `delayTime` and `state` set afterwards by the chosen mode. -/
theorem newCommand_shape (s : AState) (pending : List String) (now : Nat)
    (t : AState) (acts : List Act) (h : newCommand s pending now = some (t, acts)) :
    ∃ d m, t = { resetVars s now with delayTime := d, state := m } := by
  unfold newCommand at h
  cases hm : askMode pending with
  | none => rw [hm] at h; cases h
  | some p =>
    obtain ⟨choice, rest⟩ := p
    rw [hm] at h
    simp only at h
    split_ifs at h
    · simp only [Option.some.injEq, Prod.mk.injEq] at h
      exact ⟨30000, "S5", h.1.symm⟩
    · simp only [Option.some.injEq, Prod.mk.injEq] at h
      exact ⟨60000, "Manual S3/S4", h.1.symm⟩
    · simp only [Option.some.injEq, Prod.mk.injEq] at h
      exact ⟨75000, "Combination", h.1.symm⟩
    · cases hd : askDelay rest with
      | none => rw [hd] at h; cases h
      | some q =>
        obtain ⟨d, r⟩ := q
        rw [hd] at h
        simp only [Option.some.injEq, Prod.mk.injEq] at h
        exact ⟨d, "Custom", h.1.symm⟩

/-- The custom-delay loop only ever returns a non-zero delay. -/
theorem askDelay_ne_zero (l : List String) (d : Int) (r : List String)
    (h : askDelay l = some (d, r)) : d ≠ 0 := by
  induction l generalizing d r with
  | nil => cases h
  | cons a as ih =>
    unfold askDelay at h
    simp only [] at h
    split_ifs at h with hz
    · exact ih d r h
    · simp only [Option.some.injEq, Prod.mk.injEq] at h
      rw [← h.1]; exact hz

/-- The attempt part of `systemOff` only clears `attemptOn`. -/
theorem sysOffAttempt_state (s : AState) :
    (sysOffAttempt s).1 = { s with attemptOn := false } := by
  unfold sysOffAttempt
  split_ifs with h
  · rfl
  · cases s
    simp only [Bool.not_eq_true] at h
    simp [h]

/-- The attempt part of `systemOn` leaves `powerCheck`, the history and `state` unchanged. -/
theorem sysOnAttempt_fields (s : AState) :
    (sysOnAttempt s).1.powerCheck = s.powerCheck ∧
    (sysOnAttempt s).1.ps0 = s.ps0 ∧ (sysOnAttempt s).1.ps1 = s.ps1 := by
  unfold sysOnAttempt
  split_ifs <;> exact ⟨rfl, rfl, rfl⟩

/-- The sampler never touches `powerCheck`. -/
theorem observe_powerCheck (s : AState) (raw : Nat) :
    (observe s raw).1.powerCheck = s.powerCheck := by
  unfold observe setBuf
  split_ifs <;> rfl

/-- Committing an observation keeps `powerCheck` within 0..2, provided an
on-observation is never committed while the counter is already at 2. -/
theorem commit_powerCheck_le (s : AState) (isOn : Bool) (h1 : s.powerCheck ≤ 2)
    (h2 : isOn = true → s.powerCheck ≠ 2) :
    (commit s isOn).1.powerCheck ≤ 2 := by
  obtain ⟨i0, i1, i2, i3, i4, av, ic, cy, st, dt, md, ao, pa, p0, p1, p2, pc⟩ := s
  cases isOn with
  | false =>
    simp only [commit, updatePowerStates]
    rw [if_neg (by simp)]
    unfold systemOff sysOffAttempt sysOffProtocol
    split_ifs <;> simp_all <;> omega
  | true =>
    simp only [commit, updatePowerStates]
    rw [if_pos (by simp)]
    have hne := h2 rfl
    unfold systemOn sysOnAttempt sysOnCheck
    split_ifs <;> simp_all <;> omega

/-- Command handling keeps `powerCheck` within 0..2: only `new` touches it,
and `new` resets it to 0. -/
theorem handleLine_powerCheck_le (s : AState) (line : String)
    (pending : List String) (now : Nat) (h1 : s.powerCheck ≤ 2) :
    (handleLine s line pending now).1.powerCheck ≤ 2 := by
  unfold handleLine
  simp only []
  split_ifs
  · exact h1
  · exact h1
  · cases hn : newCommand s pending now with
    | none => simpa [hn] using h1
    | some p =>
      obtain ⟨t, acts⟩ := p
      obtain ⟨d, m, rfl⟩ := newCommand_shape s pending now t acts hn
      simp [hn, resetVars]
  · exact h1
  · exact h1
  · exact h1
  · exact h1

/-- One event keeps `powerCheck` within 0..2, provided it is not an
on-observation committed while the counter is already at 2. -/
theorem step_powerCheck_le (s : AState) (e : Ev) (h1 : s.powerCheck ≤ 2)
    (h2 : onCommitAt2 s e = false) : (step s e).1.powerCheck ≤ 2 := by
  cases e with
  | line input pending now => exact handleLine_powerCheck_le s input pending now h1
  | read raw =>
    simp only [step, loopTick]
    simp only [onCommitAt2, Bool.and_eq_false_iff, decide_eq_false_iff_not] at h2
    cases hobs : observe s raw with
    | mk s1 res =>
      have hpc : s1.powerCheck = s.powerCheck := by
        have := observe_powerCheck s raw
        rw [hobs] at this
        exact this
      cases res with
      | none => simpa [hpc] using h1
      | some isOn =>
        simp only []
        apply commit_powerCheck_le s1 isOn (by omega)
        intro hT
        subst hT
        rw [hpc]
        rcases h2 with h2 | h2
        · rw [hobs] at h2; simp at h2
        · exact h2

/-! ### Claims -/

/-- C4 (amended): starting with `powerCheck` at most 2, `powerCheck` stays
within 0..2 under any sequence of commands and raw readings in which no
on-observation is committed while `powerCheck` equals 2.  (Such a commit
drives the counter to 3, see the counterexample.) -/
theorem c4_powerCheck_invariant (s : AState) (evs : List Ev)
    (h1 : s.powerCheck ≤ 2) (h2 : noOnAt2 s evs = true) :
    (run s evs).1.powerCheck ≤ 2 := by
  induction evs generalizing s with
  | nil => simpa [run] using h1
  | cons e es ih =>
    simp only [run]
    simp only [noOnAt2, Bool.and_eq_true, Bool.not_eq_true'] at h2
    exact ih (step s e).1 (step_powerCheck_le s e h1 h2.1) h2.2

/-- C4, counterexample to the claim as stated: from the boot state, start an
S5 test, let two debounce windows read off (1023-range values) and one read
on (zeroes); the on-commit arrives while `powerCheck = 2` and `systemOn`
drives the counter to 3, outside the claimed range 0..2. -/
theorem c4_counterexample :
    (run initState
      (Ev.line "new" ["1"] 0 ::
        (List.replicate 10 (Ev.read 1000) ++
          List.replicate 5 (Ev.read 0)))).1.powerCheck = 3 := by decide

/-- C4 witness: a concrete guarded trace (the same one stopped before the
on-commit) keeps the counter within the range. -/
theorem c4_powerCheck_invariant_witness :
    initState.powerCheck ≤ 2 ∧
    noOnAt2 initState
      (Ev.line "new" ["1"] 0 :: List.replicate 10 (Ev.read 1000)) = true ∧
    (run initState
      (Ev.line "new" ["1"] 0 ::
        List.replicate 10 (Ev.read 1000))).1.powerCheck ≤ 2 :=
  ⟨by decide, by decide,
    c4_powerCheck_invariant initState _ (by decide) (by decide)⟩

/-- C10 (confirmed): the manual `toggle` command performs exactly the physical
pulse (announce, drive the pin low, hold 1000 ms, release high, settle
4800 ms) and returns the automaton state completely unchanged — in particular
`attemptOn` is not set, so no confirmation or error detection follows. -/
theorem c10_manual_toggle (s : AState) (pending : List String) (now : Nat) :
    handleLine s "toggle" pending now = (s, powerToggleActs) ∧
    powerToggleActs =
      [Act.say Msg.attemptToggle, Act.pinLow, Act.wait 1000,
        Act.pinHigh, Act.wait 4800] := by
  constructor
  · unfold handleLine
    simp only []
    rw [if_neg (by decide), if_neg (by decide), if_neg (by decide),
      if_neg (by decide), if_pos (by decide)]
  · rfl

/-- The pre-state of the C1 counterexample: an S5 test mid-check
(`powerCheck = 1`) whose last two committed states were both off. -/
def c1State : AState :=
  { initState with state := "S5", delayTime := 30000, powerCheck := 1 }

/-- C1, counterexample to the claimed "if and only if": committing an
on-observation from `c1State` makes `powerCheck` reach 2 while both prior
committed states (`history.previous()` and `history.previousPrevious()`, i.e.
`powerStates[1]` and `powerStates[2]` after the push) are off, yet the
spurious power-on error is still reported and the counter still reset —
because the source tests `powerStates[0] || powerStates[1]` and
`powerStates[0]` is the just-committed on state. -/
theorem c1_counterexample :
    (updatePowerStates c1State true).ps1 = false ∧
    (updatePowerStates c1State true).ps2 = false ∧
    c1State.powerCheck = 1 ∧
    Act.say Msg.spuriousPowerOn ∈ (commit c1State true).2 ∧
    (commit c1State true).1.powerCheck = 0 := by decide

/-- C1 (amended): during an on-commit with `powerCheck > 0` the counter is
incremented, and when it reaches 2 the spurious power-on error is reported
and the counter reset to 0 unconditionally — the source condition
`powerStates[0] || powerStates[1]` always holds there because
`powerStates[0]` is the on state just committed. -/
theorem c1_spurious_always (s : AState) (h : 0 < s.powerCheck) :
    ((commit s true).1.powerCheck =
      if s.powerCheck = 1 then 0 else s.powerCheck + 1) ∧
    (Act.say Msg.spuriousPowerOn ∈ (commit s true).2 ↔ s.powerCheck = 1) := by
  obtain ⟨i0, i1, i2, i3, i4, av, ic, cy, st, dt, md, ao, pa, p0, p1, p2, pc⟩ := s
  simp only [commit, updatePowerStates]
  rw [if_pos (by simp)]
  unfold systemOn sysOnNotify sysOnAttempt sysOnCheck
  simp only at h ⊢
  split_ifs <;> simp_all

/-- C1 witness for the amended theorem, at the counterexample state. -/
theorem c1_spurious_always_witness :
    0 < c1State.powerCheck ∧
    (((commit c1State true).1.powerCheck =
        if c1State.powerCheck = 1 then 0 else c1State.powerCheck + 1) ∧
      (Act.say Msg.spuriousPowerOn ∈ (commit c1State true).2 ↔
        c1State.powerCheck = 1)) :=
  ⟨by decide, c1_spurious_always c1State (by decide)⟩

/-- The failing input of C2: a paused S5 session (`paused = true` set by the
`pause` command), two off-checks already accumulated, previously on. -/
def c2State : AState :=
  { initState with state := "S5", delayTime := 30000, paused := true,
                   powerCheck := 2, ps0 := true }

/-- C2 (code bug): committing a debounced off-observation while `paused` is
true still runs the full `systemOff` handling — the "System is off"
notification is emitted, `PowerActuator.toggle()` fires (the pin pulse) and
`attemptOn` is set, because the source gates on `state == "Paused"`, a string
never assigned, and never reads the `paused` flag in the control path. -/
theorem c2_paused_not_respected :
    c2State.paused = true ∧
    (commit c2State false).1.ps0 = false ∧
    (commit c2State false).1.ps1 = true ∧
    (commit c2State false).2 = Act.say Msg.systemIsOff :: powerToggleActs ∧
    Act.pinLow ∈ (commit c2State false).2 ∧
    (commit c2State false).1.attemptOn = true ∧
    (commit c2State false).1.paused = true := by decide

/-- Pre-state of the C3 counterexample: a power-on attempt is pending
(`attemptOn = true`) and the last window slot holds a stale reading. -/
def c3State : AState := { initState with attemptOn := true, in4 := 7 }

/-- C3, counterexample: a `new` command that completes mode selection (choice
"1" = S5) leaves `attemptOn` at `true` — the reset block of the source never
touches it — and sets `in[4]` back to the boot sentinel 999, not 0.  So
PowerCheckProtocol is not reset to `{0, false}` as claimed. -/
theorem c3_counterexample :
    ((newCommand c3State ["1"] 0).map fun p => (p.1.attemptOn, p.1.in4)) =
      some (true, 999) := by decide

/-- C3 (amended): every `new` command that completes mode selection resets
the sample window to its boot contents `{0,0,0,0,999}` with index 0, sets all
three PowerHistory entries to false, sets `cycle` to 1, records `startTime`,
un-pauses, and resets `powerCheckStep` to 0 — but `attemptOn` is left
unchanged rather than cleared. -/
theorem c3_new_resets (s : AState) (pending : List String) (now : Nat)
    (t : AState) (acts : List Act) (h : newCommand s pending now = some (t, acts)) :
    t.in0 = 0 ∧ t.in1 = 0 ∧ t.in2 = 0 ∧ t.in3 = 0 ∧ t.in4 = 999 ∧
    t.inCount = 0 ∧ t.cycle = 1 ∧ t.startTime = now ∧ t.paused = false ∧
    t.ps0 = false ∧ t.ps1 = false ∧ t.ps2 = false ∧
    t.powerCheck = 0 ∧ t.attemptOn = s.attemptOn := by
  obtain ⟨d, m, rfl⟩ := newCommand_shape s pending now t acts h
  simp [resetVars]

/-- The state a completed `new` (choice "1") produces from `c3State`. -/
def c3After : AState :=
  { initState with attemptOn := true, delayTime := 30000, state := "S5" }

/-- The output of that completed `new`. -/
def c3Acts : List Act :=
  [Act.say (Msg.commencing "S5" 30), Act.say (Msg.cycleStart 1)]

/-- C3 witness: the amended reset facts at the concrete `new` run. -/
theorem c3_new_resets_witness :
    newCommand c3State ["1"] 0 = some (c3After, c3Acts) ∧
    (c3After.in0 = 0 ∧ c3After.in1 = 0 ∧ c3After.in2 = 0 ∧ c3After.in3 = 0 ∧
      c3After.in4 = 999 ∧ c3After.inCount = 0 ∧ c3After.cycle = 1 ∧
      c3After.startTime = 0 ∧ c3After.paused = false ∧ c3After.ps0 = false ∧
      c3After.ps1 = false ∧ c3After.ps2 = false ∧ c3After.powerCheck = 0 ∧
      c3After.attemptOn = c3State.attemptOn) :=
  ⟨by decide, c3_new_resets c3State ["1"] 0 c3After c3Acts (by decide)⟩

/-- C9 (confirmed): every `new` command that completes sets `paused` to
false, so a session created while the previous one was paused starts
un-paused without a `resume`. -/
theorem c9_new_unpauses (s : AState) (pending : List String) (now : Nat)
    (t : AState) (acts : List Act)
    (h : newCommand s pending now = some (t, acts)) : t.paused = false := by
  obtain ⟨d, m, rfl⟩ := newCommand_shape s pending now t acts h
  simp [resetVars]

/-- A paused session about to issue `new`. -/
def c9State : AState :=
  { initState with paused := true, state := "S5", delayTime := 30000 }

/-- The state a completed `new` (choice "2") produces from `c9State`. -/
def c9After : AState :=
  { initState with delayTime := 60000, state := "Manual S3/S4" }

/-- The output of that completed `new`. -/
def c9Acts : List Act :=
  [Act.say (Msg.commencing "Manual S3/S4" 60), Act.say (Msg.cycleStart 1)]

/-- C9 witness: a `new` issued from a paused S5 session starts un-paused. -/
theorem c9_new_unpauses_witness :
    newCommand c9State ["2"] 0 = some (c9After, c9Acts) ∧ c9After.paused = false :=
  ⟨by decide, c9_new_unpauses c9State ["2"] 0 c9After c9Acts (by decide)⟩

/-- C8, counterexample to "strictly positive": the custom-delay prompt of a
completed `new` accepts the input "-5" — Arduino `String::toInt` parses the
sign — and sets `delayTime = -5000`, although -5 is not a strictly positive
integer. -/
theorem c8_counterexample :
    ((newCommand initState ["4", "-5"] 0).map
      fun p => (p.1.delayTime, p.1.state)) = some (-5000, "Custom") := by decide

/-- C8 (amended): a completed `new` assigns `delayTime` 30000 for S5, 60000
for Manual S3/S4 and 75000 for Combination; for Custom, the delay prompt
loops until an input whose parsed integer is non-zero (not necessarily
positive) is supplied — input parsing to 0, including unparsable text, causes
a re-prompt without setting `delayTime` — and input "45" yields 45000. -/
theorem c8_delays (s : AState) (now : Nat) (rest : List String) (bad : String)
    (hbad : toIntM bad = 0) :
    ((newCommand s ("1" :: rest) now).map fun p => p.1.delayTime) = some 30000 ∧
    ((newCommand s ("2" :: rest) now).map fun p => p.1.delayTime) = some 60000 ∧
    ((newCommand s ("3" :: rest) now).map fun p => p.1.delayTime) = some 75000 ∧
    ((newCommand s ("4" :: "45" :: rest) now).map fun p => p.1.delayTime) =
      some 45000 ∧
    newCommand s ("4" :: bad :: rest) now = newCommand s ("4" :: rest) now ∧
    (∀ t acts, newCommand s ("4" :: rest) now = some (t, acts) →
      t.delayTime ≠ 0) := by
  have h45 : toIntM "45" = 45 := by decide
  have hm1 : askMode ("1" :: rest) = some ("1", rest) := by
    conv_lhs => rw [askMode]
    rw [if_pos (by decide)]
  have hm2 : askMode ("2" :: rest) = some ("2", rest) := by
    conv_lhs => rw [askMode]
    rw [if_pos (by decide)]
  have hm3 : askMode ("3" :: rest) = some ("3", rest) := by
    conv_lhs => rw [askMode]
    rw [if_pos (by decide)]
  have hm4 : ∀ l, askMode ("4" :: l) = some ("4", l) := by
    intro l
    conv_lhs => rw [askMode]
    rw [if_pos (by decide)]
  have hd45 : askDelay ("45" :: rest) = some (45000, rest) := by
    conv_lhs => rw [askDelay]
    rw [if_neg (by decide)]
    norm_num [h45]
  have hd : askDelay (bad :: rest) = askDelay rest := by
    conv_lhs => rw [askDelay]
    rw [if_pos (by rw [hbad]; norm_num)]
  refine ⟨?_, ?_, ?_, ?_, ?_, ?_⟩
  · unfold newCommand
    rw [hm1]
    simp
  · unfold newCommand
    rw [hm2]
    simp
  · unfold newCommand
    rw [hm3]
    simp
  · unfold newCommand
    rw [hm4]
    simp [hd45]
  · unfold newCommand
    rw [hm4, hm4]
    simp only []
    rw [hd]
  · intro t acts h
    unfold newCommand at h
    rw [hm4] at h
    simp only [show (("4":String) = "1") = False from by simp,
      show (("4":String) = "2") = False from by simp,
      show (("4":String) = "3") = False from by simp,
      if_false] at h
    cases hdl : askDelay rest with
    | none => rw [hdl] at h; cases h
    | some q =>
      obtain ⟨d, r⟩ := q
      rw [hdl] at h
      simp only [Option.some.injEq, Prod.mk.injEq] at h
      obtain ⟨h1, _⟩ := h
      subst h1
      simpa using askDelay_ne_zero rest d r hdl

/-- C8 witness: the amended delay facts at a concrete instantiation ("0" as
the rejected input, "45" pending). -/
theorem c8_delays_witness :
    toIntM "0" = 0 ∧
    (((newCommand initState ["1", "45"] 0).map fun p => p.1.delayTime) =
        some 30000 ∧
      ((newCommand initState ["2", "45"] 0).map fun p => p.1.delayTime) =
        some 60000 ∧
      ((newCommand initState ["3", "45"] 0).map fun p => p.1.delayTime) =
        some 75000 ∧
      ((newCommand initState ["4", "45", "45"] 0).map fun p => p.1.delayTime) =
        some 45000 ∧
      newCommand initState ["4", "0", "45"] 0 =
        newCommand initState ["4", "45"] 0 ∧
      (∀ t acts, newCommand initState ["4", "45"] 0 = some (t, acts) →
        t.delayTime ≠ 0)) :=
  ⟨by decide, c8_delays initState 0 ["45"] "0" (by decide)⟩

/-- C6 (confirmed): one `observe` call returns nothing exactly on internal
indices 0..3 (buffering the reading and advancing the index), and on index 4
stores the reading, returns the debounced value — the integer average of the
five buffered readings compared against the threshold — and resets the index
to 0, so a value is produced only on every 5th call since the last one.  The
integer average comparison coincides with the exact arithmetic-mean
comparison because the threshold is an integer. -/
theorem c6_sampler (s : AState) (raw : Nat) (h : s.inCount ≤ 4) :
    ((observe s raw).2 = none ↔ s.inCount < 4) ∧
    bufGet (observe s raw).1 s.inCount = raw ∧
    ((observe s raw).1.inCount = if s.inCount = 4 then 0 else s.inCount + 1) ∧
    (s.inCount = 4 →
      (observe s raw).2 =
        some (decide
          ((s.in0 + s.in1 + s.in2 + s.in3 + raw) / 5 < pwrThreshold)) ∧
      ((s.in0 + s.in1 + s.in2 + s.in3 + raw) / 5 < pwrThreshold ↔
        s.in0 + s.in1 + s.in2 + s.in3 + raw < 5 * pwrThreshold)) := by
  have hcase : s.inCount = 0 ∨ s.inCount = 1 ∨ s.inCount = 2 ∨
      s.inCount = 3 ∨ s.inCount = 4 := by omega
  have hdiv : ∀ a : Nat, (a / 5 < pwrThreshold ↔ a < 5 * pwrThreshold) := by
    intro a
    unfold pwrThreshold
    omega
  rcases hcase with hc | hc | hc | hc | hc <;>
    simp [observe, setBuf, bufGet, bufSum, hc, hdiv]

/-- The pre-state of the C6 witness: four buffered readings 50,60,70,80 with
the index at 4, about to receive the fifth reading. -/
def c6State : AState :=
  { initState with in0 := 50, in1 := 60, in2 := 70, in3 := 80, inCount := 4 }

/-- C6 witness: with the fifth reading 90 the sampler returns
`some true` (average 70 below threshold 100). -/
theorem c6_sampler_witness :
    c6State.inCount ≤ 4 ∧
    (((observe c6State 90).2 = none ↔ c6State.inCount < 4) ∧
      bufGet (observe c6State 90).1 c6State.inCount = 90 ∧
      ((observe c6State 90).1.inCount =
        if c6State.inCount = 4 then 0 else c6State.inCount + 1) ∧
      (c6State.inCount = 4 →
        (observe c6State 90).2 =
          some (decide
            ((c6State.in0 + c6State.in1 + c6State.in2 + c6State.in3 + 90) / 5 <
              pwrThreshold)) ∧
        ((c6State.in0 + c6State.in1 + c6State.in2 + c6State.in3 + 90) / 5 <
            pwrThreshold ↔
          c6State.in0 + c6State.in1 + c6State.in2 + c6State.in3 + 90 <
            5 * pwrThreshold))) :=
  ⟨by decide, c6_sampler c6State 90 (by decide)⟩

/-- C7 (confirmed): whenever an off-observation is handled while `attemptOn`
is true, the failed power-on error is reported right after the presence
notification, `attemptOn` is cleared before the check protocol runs, and the
protocol is entered from the current `powerCheckStep` value (not reset): the
resulting state and remaining output are exactly those of the same
`systemOff` run started with `attemptOn` already cleared. -/
theorem c7_failed_power_on (s : AState) (h : s.attemptOn = true) :
    (systemOff s).1 = (systemOff { s with attemptOn := false }).1 ∧
    (systemOff s).2 =
      sysOffNotify s ++ Act.say Msg.failedPowerOn ::
        (sysOffProtocol { s with attemptOn := false }).2 ∧
    (systemOff { s with attemptOn := false }).2 =
      sysOffNotify s ++ (sysOffProtocol { s with attemptOn := false }).2 ∧
    Act.say Msg.failedPowerOn ∈ (systemOff s).2 := by
  have e1 : sysOffAttempt s =
      ({ s with attemptOn := false }, [Act.say Msg.failedPowerOn]) := by
    unfold sysOffAttempt
    rw [if_pos h]
  have e2 : sysOffAttempt { s with attemptOn := false } =
      ({ s with attemptOn := false }, []) := by
    unfold sysOffAttempt
    rw [if_neg (by simp)]
  refine ⟨?_, ?_, ?_, ?_⟩
  · simp [systemOff, e1, e2]
  · simp [systemOff, e1]
  · simp [systemOff, e2, sysOffNotify]
  · simp [systemOff, e1]

/-- The pre-state of the C7 witness: an S5 session with a pending power-on
attempt, previously on, one check accumulated. -/
def c7State : AState :=
  { initState with state := "S5", delayTime := 30000, attemptOn := true,
                   powerCheck := 1, ps1 := true }

/-- C7 witness: the failed-power-on facts at the concrete state. -/
theorem c7_failed_power_on_witness :
    c7State.attemptOn = true ∧
    ((systemOff c7State).1 = (systemOff { c7State with attemptOn := false }).1 ∧
      (systemOff c7State).2 =
        sysOffNotify c7State ++ Act.say Msg.failedPowerOn ::
          (sysOffProtocol { c7State with attemptOn := false }).2 ∧
      (systemOff { c7State with attemptOn := false }).2 =
        sysOffNotify c7State ++
          (sysOffProtocol { c7State with attemptOn := false }).2 ∧
      Act.say Msg.failedPowerOn ∈ (systemOff c7State).2) :=
  ⟨by decide, c7_failed_power_on c7State (by decide)⟩

/-- Characterisation of one committed off-observation with a running test:
the mode string is unchanged, the check counter escalates 0, 1, 2, 0 (wrap
at 2), `attemptOn` ends true exactly when the counter was 2 (toggle issued),
and the pin pulse appears in the output exactly when the counter was 2. -/
theorem commit_off_facts (s : AState)
    (hmode : ¬(s.state = "None" ∨ s.state = "Paused")) :
    (commit s false).1.state = s.state ∧
    (commit s false).1.powerCheck =
      (if s.powerCheck = 2 then 0
        else if s.powerCheck = 0 then 1 else s.powerCheck + 1) ∧
    (commit s false).1.attemptOn = decide (s.powerCheck = 2) ∧
    (Act.pinLow ∈ (commit s false).2 ↔ s.powerCheck = 2) := by
  obtain ⟨i0, i1, i2, i3, i4, av, ic, cy, st, dt, md, ao, pa, p0, p1, p2, pc⟩ := s
  simp only [commit, updatePowerStates]
  rw [if_neg (by simp)]
  simp only at hmode
  unfold systemOff sysOffNotify sysOffAttempt sysOffProtocol powerToggleActs
  split_ifs <;> simp_all

/-- C5 (confirmed): with an active running mode and `powerCheckStep` starting
at 0, three consecutive committed off-observations with no intervening
on-observation drive the counter through 1 and 2; only the third run emits
the pin pulse of `PowerActuator.toggle()`, and it leaves `attemptOn = true`
and `powerCheckStep = 0`. -/
theorem c5_three_offs (s : AState)
    (hmode : ¬(s.state = "None" ∨ s.state = "Paused"))
    (hpc : s.powerCheck = 0) :
    ((commit s false).1.powerCheck = 1 ∧
      Act.pinLow ∉ (commit s false).2) ∧
    ((commit (commit s false).1 false).1.powerCheck = 2 ∧
      Act.pinLow ∉ (commit (commit s false).1 false).2) ∧
    ((commit (commit (commit s false).1 false).1 false).1.powerCheck = 0 ∧
      (commit (commit (commit s false).1 false).1 false).1.attemptOn = true ∧
      Act.pinLow ∈ (commit (commit (commit s false).1 false).1 false).2) := by
  obtain ⟨hst1, hpc1, hat1, hm1⟩ := commit_off_facts s hmode
  rw [hpc] at hpc1
  norm_num at hpc1
  have hmode1 :
      ¬((commit s false).1.state = "None" ∨
        (commit s false).1.state = "Paused") := by
    rw [hst1]; exact hmode
  obtain ⟨hst2, hpc2, hat2, hm2⟩ := commit_off_facts (commit s false).1 hmode1
  rw [hpc1] at hpc2
  norm_num at hpc2
  have hmode2 :
      ¬((commit (commit s false).1 false).1.state = "None" ∨
        (commit (commit s false).1 false).1.state = "Paused") := by
    rw [hst2]; exact hmode1
  obtain ⟨hst3, hpc3, hat3, hm3⟩ :=
    commit_off_facts (commit (commit s false).1 false).1 hmode2
  rw [hpc2] at hpc3 hat3 hm3
  norm_num at hpc3 hat3
  refine ⟨⟨hpc1, ?_⟩, ⟨hpc2, ?_⟩, hpc3, hat3, ?_⟩
  · rw [hm1, hpc]; norm_num
  · rw [hm2, hpc1]; norm_num
  · rw [hm3]

/-- The pre-state of the C5 witness: a fresh S5 session. -/
def c5State : AState := { initState with state := "S5", delayTime := 30000 }

/-- C5 witness: the escalation facts at the concrete S5 session. -/
theorem c5_three_offs_witness :
    (¬(c5State.state = "None" ∨ c5State.state = "Paused") ∧
      c5State.powerCheck = 0) ∧
    (((commit c5State false).1.powerCheck = 1 ∧
        Act.pinLow ∉ (commit c5State false).2) ∧
      ((commit (commit c5State false).1 false).1.powerCheck = 2 ∧
        Act.pinLow ∉ (commit (commit c5State false).1 false).2) ∧
      ((commit (commit (commit c5State false).1 false).1 false).1.powerCheck = 0 ∧
        (commit (commit (commit c5State false).1 false).1 false).1.attemptOn =
          true ∧
        Act.pinLow ∈ (commit (commit (commit c5State false).1 false).1 false).2)) :=
  ⟨⟨by decide, by decide⟩, c5_three_offs c5State (by decide) (by decide)⟩
